import Mathlib

/-! Shallow embedding of
`src/microservices/upload_service/src/utils/process_task_helpers.py`
(document-intake-accelerator upload service pipeline helpers).

Remote collaborators (classification, extraction, validation, matching,
approval-status update) are modelled by an `Env` of response functions;
every outgoing remote call is recorded as an `Event` so that claims about
which calls are (or are not) made can be stated as facts about the trace.
Python dict `.get` accesses are modelled with `Option`; the exceptions that
can escape the orchestration body (subscripting `None`, indexing an empty
list) are modelled with `Except PyError`.
-/

namespace ProcessTask

/-- One entry of `payload["configs"]`: a Python dict whose fields are read
with `.get`, hence every field is an `Option`. -/
structure Config where
  case_id : Option String
  uid : Option String
  gcs_url : Option String
  document_type : Option String
  document_class : Option String
deriving DecidableEq, Repr

/-- The `payload` dict handed to `run_pipeline`; the code reads
`payload.get("configs")`. -/
structure Payload where
  configs : Option (List Config)
deriving DecidableEq, Repr

/-- Python exceptions that can escape the `try` body of `run_pipeline`:
`TypeError` from subscripting / iterating `None` (missing `configs`) and
`IndexError` from `configs[0]` on an empty list. -/
inductive PyError where
  | typeError
  | indexError
deriving DecidableEq, Repr

/-- Response of the classification service: `status_code`, and the JSON
fields `doc_type` / `doc_class` read with `.get`. -/
structure ClassifyResponse where
  status_code : Nat
  doc_type : Option String
  doc_class : Option String
deriving DecidableEq, Repr

/-- Response of the extraction / validation / matching services:
`status_code` and the JSON field `score` read with `.get`. -/
structure ScoreResponse where
  status_code : Nat
  score : Option Int
deriving DecidableEq, Repr

/-- The external collaborators, abstracted as response functions of the
query parameters the code sends.

`get_values` is the auto-approval decision function imported from
`utils.autoapproval`, which is not under `src/`.  Modelled from the spec:
`ComputeApprovalStatus(validation_score|absent, extraction_score|absent,
matching_score|absent, document_class, document_type) -> autoapproved_status`
is a pure, total decision function that accepts absent scores for any of
the three inputs and still produces a status; the code reads element `[0]`
of its result, modelled here as the returned status string itself. -/
structure Env where
  classify : Option String → Option String → Option String → ClassifyResponse
  extract : Option String → Option String → Option String → ScoreResponse
  validate : Option String → Option String → Option String → ScoreResponse
  matching : Option String → Option String → ScoreResponse
  get_values : Option Int → Option Int → Option Int → Option String → String → String

/-- Observable actions of the pipeline.  The first five record the outgoing
remote POST of the correspondingly named service wrapper, with the query
parameters the code passes.  `vmaCall` marks the internal invocation
`validate_match_approve(doc, extraction_score)` (line 48 of the source),
recording which extraction score the stage receives. -/
inductive Event where
  | classifyCall (case_id uid gcs_url : Option String)
  | extractCall (case_id uid document_class : Option String)
  | validateCall (case_id uid document_class : Option String)
  | matchCall (case_id uid : Option String)
  | approvalWrite (case_id uid : Option String)
      (a_status autoapproved_status is_autoapproved : String)
  | vmaCall (uid : Option String) (extraction_score : Option Int)
deriving DecidableEq, Repr

/-- Whether an event is a classification call. -/
def Event.isClassifyCall : Event → Bool
  | .classifyCall _ _ _ => true
  | _ => false

/-- Whether an event is an extraction call. -/
def Event.isExtractCall : Event → Bool
  | .extractCall _ _ _ => true
  | _ => false

/-- Whether an event is a validation call. -/
def Event.isValidateCall : Event → Bool
  | .validateCall _ _ _ => true
  | _ => false

/-- Whether an event is a matching call. -/
def Event.isMatchCall : Event → Bool
  | .matchCall _ _ => true
  | _ => false

/-- Whether an event is an approval-status write. -/
def Event.isApprovalWrite : Event → Bool
  | .approvalWrite _ _ _ _ _ => true
  | _ => false

/-- Embeds `get_classification`: POST to the classification service,
returning its response. -/
def get_classification (env : Env) (case_id uid gcs_url : Option String) :
    ClassifyResponse × List Event :=
  (env.classify case_id uid gcs_url, [Event.classifyCall case_id uid gcs_url])

/-- Embeds `get_extraction_score`: POST to the extraction service. -/
def get_extraction_score (env : Env) (case_id uid document_class : Option String) :
    ScoreResponse × List Event :=
  (env.extract case_id uid document_class,
   [Event.extractCall case_id uid document_class])

/-- Embeds `get_validation_score`: POST to the validation service. -/
def get_validation_score (env : Env) (case_id uid document_class : Option String) :
    ScoreResponse × List Event :=
  (env.validate case_id uid document_class,
   [Event.validateCall case_id uid document_class])

/-- Embeds `get_matching_score`: POST to the matching service. -/
def get_matching_score (env : Env) (case_id uid : Option String) :
    ScoreResponse × List Event :=
  (env.matching case_id uid, [Event.matchCall case_id uid])

/-- Embeds `update_autoapproval_status`: POST to the document-status
service; its response is never inspected by any caller, so only the call
event is kept. -/
def update_autoapproval_status (case_id uid : Option String)
    (a_status autoapproved_status is_autoapproved : String) : List Event :=
  [Event.approvalWrite case_id uid a_status autoapproved_status is_autoapproved]

/-- Embeds the loop body of `filter_documents` for one config: call
classification; on status 200 route by `doc_type`, attaching `doc_class`
to the config; otherwise (or on unrecognized `doc_type`) route nowhere. -/
def filter_documents_go (env : Env) :
    List Config → (List Config × List Config) × List Event
  | [] => (([], []), [])
  | config :: rest =>
    let cl := get_classification env config.case_id config.uid config.gcs_url
    let here : List Config × List Config :=
      if cl.1.status_code = 200 then
        let document_type := cl.1.doc_type
        let document_class := cl.1.doc_class
        if document_type = some "application_form" then
          ([{ config with document_class := document_class }], [])
        else if document_type = some "supporting_documents" then
          ([], [{ config with document_class := document_class }])
        else ([], [])
      else ([], [])
    let restRes := filter_documents_go env rest
    ((here.1 ++ restRes.1.1, here.2 ++ restRes.1.2), cl.2 ++ restRes.2)

/-- Embeds `filter_documents(configs)` where the argument is
`payload.get("configs")`: iterating over `None` raises `TypeError`;
otherwise returns `(application_form, supporting_docs)`. -/
def filter_documents (env : Env) :
    Option (List Config) → Except PyError ((List Config × List Config) × List Event)
  | none => .error .typeError
  | some configs => .ok (filter_documents_go env configs)

/-- Embeds `extract_documents(doc, document_type)`: call extraction; on
status 200 take the score and, when `document_type` is
`"application_form"`, compute the auto-approval status and write it with
processing status `"success"` and `is_autoapproved="yes"`; on failure the
score stays `None` and nothing is written. -/
def extract_documents (env : Env) (doc : Config) (document_type : String) :
    Option Int × List Event :=
  let case_id := doc.case_id
  let uid := doc.uid
  let document_class := doc.document_class
  let extract_res := get_extraction_score env case_id uid document_class
  if extract_res.1.status_code = 200 then
    let extraction_score := extract_res.1.score
    if document_type = "application_form" then
      let autoapproval_status :=
        env.get_values none extraction_score none document_class document_type
      (extraction_score,
       extract_res.2 ++
         update_autoapproval_status case_id uid "success" autoapproval_status "yes")
    else (extraction_score, extract_res.2)
  else (none, extract_res.2)

/-- Embeds `update_autoapproval`: compute the status via `get_values` and
write it with processing status `"success"` and `is_autoapproved="yes"`. -/
def update_autoapproval (env : Env) (document_class : Option String)
    (document_type : String) (case_id uid : Option String)
    (validation_score extraction_score matching_score : Option Int) : List Event :=
  let autoapproval_status :=
    env.get_values validation_score extraction_score matching_score
      document_class document_type
  update_autoapproval_status case_id uid "success" autoapproval_status "yes"

/-- Embeds `validate_match_approve(sup_doc, extraction_score)`: call
validation; on status 200 call matching; on status 200 of that too, write
the combined auto-approval status; any failure stops the chain there. -/
def validate_match_approve (env : Env) (sup_doc : Config)
    (extraction_score : Option Int) :
    (Option Int × Option Int) × List Event :=
  let case_id := sup_doc.case_id
  let uid := sup_doc.uid
  let document_class := sup_doc.document_class
  let document_type := "supporting_documents"
  let validation_res := get_validation_score env case_id uid document_class
  if validation_res.1.status_code = 200 then
    let validation_score := validation_res.1.score
    let matching_res := get_matching_score env case_id uid
    if matching_res.1.status_code = 200 then
      let matching_score := matching_res.1.score
      ((validation_score, matching_score),
       validation_res.2 ++ matching_res.2 ++
         update_autoapproval env document_class document_type case_id uid
           validation_score extraction_score matching_score)
    else ((validation_score, none), validation_res.2 ++ matching_res.2)
  else ((none, none), validation_res.2)

/-- Embeds `get_documents(payload)`: reads
`payload.get("configs")[0].get("document_type")` — `TypeError` if
`configs` is missing, `IndexError` if it is empty — and routes that single
first entry by its `document_type`; any other value routes it nowhere. -/
def get_documents (payload : Payload) :
    Except PyError (List Config × List Config) :=
  match payload.configs with
  | none => .error .typeError
  | some [] => .error .indexError
  | some (c0 :: _) =>
    let document_type := c0.document_type
    if document_type = some "application_form" then .ok ([c0], [])
    else if document_type = some "supporting_documents" then .ok ([], [c0])
    else .ok ([], [])

/-- Embeds the application-form loop of `run_pipeline` (lines 37-39):
`extraction_score` is a shared local, overwritten by each iteration. -/
def apps_loop (env : Env) :
    List Config → Option Int → Option Int × List Event
  | [], extraction_score => (extraction_score, [])
  | doc :: rest, _ =>
    let r := extract_documents env doc "application_form"
    let restRes := apps_loop env rest r.1
    (restRes.1, r.2 ++ restRes.2)

/-- Embeds the supporting-documents loop of `run_pipeline` (lines 41-48):
when `is_reassign` is false each iteration overwrites `extraction_score`
with a fresh extraction result; when it is true the incoming value is
passed through unchanged to `validate_match_approve`. -/
def sups_loop (env : Env) (is_reassign : Bool) :
    List Config → Option Int → Option Int × List Event
  | [], extraction_score => (extraction_score, [])
  | doc :: rest, extraction_score =>
    let step : Option Int × List Event :=
      if !is_reassign then extract_documents env doc "supporting_documents"
      else (extraction_score, [])
    let vma := validate_match_approve env doc step.1
    let restRes := sups_loop env is_reassign rest step.1
    (restRes.1,
     step.2 ++ [Event.vmaCall doc.uid step.1] ++ vma.2 ++ restRes.2)

/-- Embeds the routing head of `run_pipeline` (lines 19-32): hitl or
reassign batches route via `get_documents`; otherwise (the
`elif not is_reassign` branch) via `filter_documents`; the remaining
(unreachable) case leaves both groups empty. -/
def route (env : Env) (payload : Payload) (is_hitl is_reassign : Bool) :
    Except PyError ((List Config × List Config) × List Event) :=
  if is_hitl || is_reassign then
    match get_documents payload with
    | .error e => .error e
    | .ok groups => .ok (groups, [])
  else if !is_reassign then
    filter_documents env payload.configs
  else .ok (([], []), [])

/-- The extraction/validation phase of `run_pipeline` (lines 35-48), run
when `is_hitl` is set or either group is non-empty: the application loop
first, then the supporting-documents loop, with the shared
`extraction_score` local (initially `None`) threaded between them. -/
def extraction_phase (env : Env) (is_reassign : Bool)
    (applications supporting_docs : List Config) : List Event :=
  let appsRes := apps_loop env applications none
  appsRes.2 ++ (sups_loop env is_reassign supporting_docs appsRes.1).2

/-- The body of the `try` block of `run_pipeline`: route, then run the
extraction phase when `is_hitl` is set or either group is non-empty
(Python truthiness of the lists). -/
def run_pipeline_inner (env : Env) (payload : Payload)
    (is_hitl is_reassign : Bool) : Except PyError Unit × List Event :=
  match route env payload is_hitl is_reassign with
  | .error e => (.error e, [])
  | .ok (groups, ev_route) =>
    if is_hitl || !groups.1.isEmpty || !groups.2.isEmpty then
      (.ok (), ev_route ++ extraction_phase env is_reassign groups.1 groups.2)
    else (.ok (), ev_route)

/-- Embeds `run_pipeline(payload, is_hitl, is_reassign)`: any exception
escaping the body is re-raised as `HTTPException(status_code=500,
detail=e)`, carrying the original error. -/
def run_pipeline (env : Env) (payload : Payload)
    (is_hitl is_reassign : Bool) : Except (Nat × PyError) Unit × List Event :=
  match run_pipeline_inner env payload is_hitl is_reassign with
  | (.ok u, tr) => (.ok u, tr)
  | (.error e, tr) => (.error (500, e), tr)

/-- Concatenation of per-document traces, used to state that each
document's segment of a loop trace depends on that document alone. -/
def traceConcat (f : Config → List Event) : List Config → List Event
  | [] => []
  | d :: rest => f d ++ traceConcat f rest

/-- The routed form of one config in the standard (classify) flow, as an
application form: `some` of the config with `document_class` attached iff
classification succeeds with `doc_type = "application_form"`. -/
def routed_app (env : Env) (config : Config) : Option Config :=
  let cl := env.classify config.case_id config.uid config.gcs_url
  if cl.status_code = 200 ∧ cl.doc_type = some "application_form" then
    some { config with document_class := cl.doc_class }
  else none

/-- The routed form of one config in the standard (classify) flow, as a
supporting document. -/
def routed_sup (env : Env) (config : Config) : Option Config :=
  let cl := env.classify config.case_id config.uid config.gcs_url
  if cl.status_code = 200 ∧ cl.doc_type = some "supporting_documents" then
    some { config with document_class := cl.doc_class }
  else none

/-- The full trace one supporting document generates in the non-reassign
supporting loop: its extraction call(s), the invocation of
`validate_match_approve` with the freshly produced score, and that
stage's own calls. -/
def sup_doc_trace (env : Env) (doc : Config) : List Event :=
  let r := extract_documents env doc "supporting_documents"
  r.2 ++ [Event.vmaCall doc.uid r.1] ++ (validate_match_approve env doc r.1).2

/-! ### Trace-shape lemmas -/

/-- The trace of `extract_documents`: the extraction call, followed by the
approval write exactly when extraction succeeded and the document type is
`"application_form"`. -/
theorem extract_documents_trace (env : Env) (d : Config) (t : String) :
    (extract_documents env d t).2 =
      Event.extractCall d.case_id d.uid d.document_class ::
        (if (env.extract d.case_id d.uid d.document_class).status_code = 200 ∧
            t = "application_form" then
          [Event.approvalWrite d.case_id d.uid "success"
            (env.get_values none (env.extract d.case_id d.uid d.document_class).score
              none d.document_class t) "yes"]
         else []) := by
  simp only [extract_documents, get_extraction_score, update_autoapproval_status]
  split
  · split
    · simp_all
    · simp_all
  · simp_all

/-- The score returned by `extract_documents`: the response score on
success, `None` on failure. -/
theorem extract_documents_score (env : Env) (d : Config) (t : String) :
    (extract_documents env d t).1 =
      (if (env.extract d.case_id d.uid d.document_class).status_code = 200 then
        (env.extract d.case_id d.uid d.document_class).score
       else none) := by
  simp only [extract_documents, get_extraction_score]
  split
  · split <;> rfl
  · rfl

/-- The trace of `validate_match_approve`: the validation call, then (on
success) the matching call, then (on success of that) the approval write. -/
theorem validate_match_approve_trace (env : Env) (d : Config) (s : Option Int) :
    (validate_match_approve env d s).2 =
      Event.validateCall d.case_id d.uid d.document_class ::
        (if (env.validate d.case_id d.uid d.document_class).status_code = 200 then
          Event.matchCall d.case_id d.uid ::
            (if (env.matching d.case_id d.uid).status_code = 200 then
              [Event.approvalWrite d.case_id d.uid "success"
                (env.get_values (env.validate d.case_id d.uid d.document_class).score s
                  (env.matching d.case_id d.uid).score d.document_class
                  "supporting_documents") "yes"]
             else [])
         else []) := by
  simp only [validate_match_approve, get_validation_score, get_matching_score,
    update_autoapproval, update_autoapproval_status]
  split
  · split <;> simp_all
  · simp_all

/-- Membership in a concatenation of per-document traces. -/
theorem mem_traceConcat_of_mem {f : Config → List Event} {docs : List Config}
    {d : Config} {x : Event} (hd : d ∈ docs) (hx : x ∈ f d) :
    x ∈ traceConcat f docs := by
  induction docs with
  | nil => cases hd
  | cons c rest ih =>
    rcases List.mem_cons.mp hd with h | h
    · subst h; exact List.mem_append.mpr (Or.inl hx)
    · exact List.mem_append.mpr (Or.inr (ih h))

/-- A pointwise property of per-document traces holds of their
concatenation. -/
theorem traceConcat_forall {f : Config → List Event} {p : Event → Prop}
    (hp : ∀ d, ∀ x ∈ f d, p x) :
    ∀ docs : List Config, ∀ e ∈ traceConcat f docs, p e := by
  intro docs
  induction docs with
  | nil => intro e he; cases he
  | cons c rest ih =>
    intro e he
    rcases List.mem_append.mp he with h | h
    · exact hp c e h
    · exact ih e h

/-- The application loop emits exactly the per-document extraction-stage
traces, in input order; no document's segment depends on another. -/
theorem apps_loop_trace (env : Env) (docs : List Config) (s0 : Option Int) :
    (apps_loop env docs s0).2 =
      traceConcat (fun d => (extract_documents env d "application_form").2) docs := by
  induction docs generalizing s0 with
  | nil => rfl
  | cons d rest ih => simp [apps_loop, traceConcat, ih]

/-- The non-reassign supporting loop emits exactly the per-document traces
`sup_doc_trace`, in input order; no document's segment depends on another
or on the incoming score. -/
theorem sups_loop_false_trace (env : Env) (docs : List Config) (s0 : Option Int) :
    (sups_loop env false docs s0).2 = traceConcat (sup_doc_trace env) docs := by
  induction docs generalizing s0 with
  | nil => rfl
  | cons d rest ih => simp [sups_loop, traceConcat, sup_doc_trace, ih]

/-- The reassign supporting loop never extracts: each document contributes
the `validate_match_approve` invocation with the incoming score, unchanged
across iterations. -/
theorem sups_loop_true_trace (env : Env) (docs : List Config) (s0 : Option Int) :
    (sups_loop env true docs s0).2 =
      traceConcat
        (fun d => Event.vmaCall d.uid s0 :: (validate_match_approve env d s0).2)
        docs := by
  induction docs with
  | nil => rfl
  | cons d rest ih => simp [sups_loop, traceConcat, ih]

/-- The classify-flow router is a pair of order-preserving `filterMap`s over
the input, and its trace is one classification call per input config, in
input order. -/
theorem filter_documents_go_eq (env : Env) (configs : List Config) :
    filter_documents_go env configs =
      ((configs.filterMap (routed_app env), configs.filterMap (routed_sup env)),
       configs.map (fun c => Event.classifyCall c.case_id c.uid c.gcs_url)) := by
  induction configs with
  | nil => rfl
  | cons c rest ih =>
    simp only [filter_documents_go, get_classification, ih, List.filterMap_cons,
      List.map_cons, routed_app, routed_sup]
    by_cases h200 : (env.classify c.case_id c.uid c.gcs_url).status_code = 200
    · by_cases happ :
        (env.classify c.case_id c.uid c.gcs_url).doc_type = some "application_form"
      · simp [h200, happ]
      · by_cases hsup : (env.classify c.case_id c.uid c.gcs_url).doc_type =
          some "supporting_documents"
        · simp [h200, happ, hsup]
        · simp [h200, happ, hsup]
    · simp [h200]

/-- Every event the router emits is a classification call. -/
theorem route_trace_classify (env : Env) (payload : Payload)
    (is_hitl is_reassign : Bool) (groups : List Config × List Config)
    (ev_route : List Event)
    (h : route env payload is_hitl is_reassign = .ok (groups, ev_route)) :
    ∀ e ∈ ev_route, e.isClassifyCall = true := by
  unfold route at h
  split at h
  · split at h
    · cases h
    · cases h
      intro e he
      cases he
  · split at h
    · unfold filter_documents at h
      split at h
      · cases h
      · rw [filter_documents_go_eq] at h
        cases h
        intro e he
        rcases List.mem_map.mp he with ⟨c, _, rfl⟩
        rfl
    · cases h
      intro e he
      cases he

/-- No event of the extraction phase is a classification call. -/
theorem extraction_phase_no_classify (env : Env) (is_reassign : Bool)
    (applications supporting_docs : List Config) :
    ∀ e ∈ extraction_phase env is_reassign applications supporting_docs,
      e.isClassifyCall = false := by
  intro e he
  unfold extraction_phase at he
  rcases List.mem_append.mp he with h | h
  · rw [apps_loop_trace] at h
    refine traceConcat_forall (p := fun x => x.isClassifyCall = false) (fun d x hx => ?_) applications e h
    rw [extract_documents_trace] at hx
    rcases List.mem_cons.mp hx with rfl | hx
    · rfl
    · split at hx
      · rcases List.mem_singleton.mp hx with rfl
        rfl
      · cases hx
  · cases is_reassign with
    | false =>
      rw [sups_loop_false_trace] at h
      refine traceConcat_forall (p := fun x => x.isClassifyCall = false) (fun d x hx => ?_) supporting_docs e h
      unfold sup_doc_trace at hx
      rcases List.mem_append.mp hx with hx | hx
      · rcases List.mem_append.mp hx with hx | hx
        · rw [extract_documents_trace] at hx
          rcases List.mem_cons.mp hx with rfl | hx
          · rfl
          · split at hx
            · rcases List.mem_singleton.mp hx with rfl
              rfl
            · cases hx
        · rcases List.mem_singleton.mp hx with rfl
          rfl
      · rw [validate_match_approve_trace] at hx
        rcases List.mem_cons.mp hx with rfl | hx
        · rfl
        · split at hx
          · rcases List.mem_cons.mp hx with rfl | hx
            · rfl
            · split at hx
              · rcases List.mem_singleton.mp hx with rfl
                rfl
              · cases hx
          · cases hx
    | true =>
      rw [sups_loop_true_trace] at h
      refine traceConcat_forall (p := fun x => x.isClassifyCall = false) (fun d x hx => ?_) supporting_docs e h
      rcases List.mem_cons.mp hx with rfl | hx
      · rfl
      · rw [validate_match_approve_trace] at hx
        rcases List.mem_cons.mp hx with rfl | hx
        · rfl
        · split at hx
          · rcases List.mem_cons.mp hx with rfl | hx
            · rfl
            · split at hx
              · rcases List.mem_singleton.mp hx with rfl
                rfl
              · cases hx
          · cases hx

/-- The trace of `run_pipeline` is the trace of its `try` body. -/
theorem run_pipeline_trace_eq (env : Env) (payload : Payload)
    (is_hitl is_reassign : Bool) :
    (run_pipeline env payload is_hitl is_reassign).2 =
      (run_pipeline_inner env payload is_hitl is_reassign).2 := by
  unfold run_pipeline
  split <;> simp_all

/-- When routing succeeds, the `try` body returns `ok` and its trace is the
routing trace followed by the extraction phase exactly when `is_hitl` is
set or either group is non-empty. -/
theorem run_pipeline_inner_trace (env : Env) (payload : Payload)
    (is_hitl is_reassign : Bool) (groups : List Config × List Config)
    (ev_route : List Event)
    (h : route env payload is_hitl is_reassign = .ok (groups, ev_route)) :
    run_pipeline_inner env payload is_hitl is_reassign =
      (.ok (),
       ev_route ++
         (if is_hitl || !groups.1.isEmpty || !groups.2.isEmpty then
           extraction_phase env is_reassign groups.1 groups.2
          else [])) := by
  unfold run_pipeline_inner
  rw [h]
  split
  · simp_all
  · rename_i heq
    rcases heq with ⟨rfl, rfl⟩
    split <;> simp_all

/-- When routing succeeds with an empty routing trace, no event of the
whole pipeline run is a classification call. -/
theorem run_pipeline_no_classify_of_empty_route (env : Env) (payload : Payload)
    (is_hitl is_reassign : Bool) (groups : List Config × List Config)
    (h : route env payload is_hitl is_reassign = .ok (groups, [])) :
    ∀ e ∈ (run_pipeline env payload is_hitl is_reassign).2,
      e.isClassifyCall = false := by
  intro e he
  rw [run_pipeline_trace_eq,
    run_pipeline_inner_trace env payload is_hitl is_reassign _ _ h] at he
  simp only [List.nil_append] at he
  by_cases hc : (is_hitl || !groups.1.isEmpty || !groups.2.isEmpty) = true
  · rw [if_pos hc] at he
    exact extraction_phase_no_classify env is_reassign _ _ e he
  · rw [if_neg hc] at he
    cases he

/-! ### Concrete collaborator environments and payloads -/

/-- An environment in which every collaborator call succeeds; classification
labels the config with uid `"appA"` an application form and everything else
a supporting document. -/
def envAllOk : Env where
  classify := fun _ uid _ =>
    if uid = some "appA" then ⟨200, some "application_form", some "clsA"⟩
    else ⟨200, some "supporting_documents", some "clsS"⟩
  extract := fun _ _ _ => ⟨200, some 8⟩
  validate := fun _ _ _ => ⟨200, some 7⟩
  matching := fun _ _ => ⟨200, some 9⟩
  get_values := fun _ _ _ _ _ => "approved"

/-- An environment in which extraction always fails (status 500) while
every other collaborator succeeds. -/
def envExtractFail : Env where
  classify := fun _ _ _ => ⟨200, some "supporting_documents", some "clsS"⟩
  extract := fun _ _ _ => ⟨500, none⟩
  validate := fun _ _ _ => ⟨200, some 7⟩
  matching := fun _ _ => ⟨200, some 9⟩
  get_values := fun _ _ _ _ _ => "approved"

/-- A supporting-document config. -/
def cfgSupW : Config :=
  ⟨some "caseS", some "uS", some "gS", some "supporting_documents", some "clsS"⟩

/-- An application-form config. -/
def cfgAppW : Config :=
  ⟨some "caseA", some "appA", some "gA", some "application_form", some "clsA"⟩

/-- A one-entry payload holding `cfgSupW`. -/
def payloadSupW : Payload := ⟨some [cfgSupW]⟩

/-! ### Claims -/

/-- C2: for every supporting document in a batch, after the extraction
branch (ran and succeeded, ran and failed, or skipped under `is_reassign`),
`validate_match_approve` is invoked for that document, receiving exactly
the extraction score that branch produced: the fresh extraction result
(possibly `None` on failure) when extraction ran, the untouched incoming
score when it was skipped. -/
theorem C2_vma_receives_branch_score (env : Env) (is_reassign : Bool)
    (docs : List Config) (s0 : Option Int) (doc : Config) (hmem : doc ∈ docs) :
    Event.vmaCall doc.uid
        (if is_reassign then s0
         else (extract_documents env doc "supporting_documents").1)
      ∈ (sups_loop env is_reassign docs s0).2 := by
  cases is_reassign with
  | false =>
    rw [sups_loop_false_trace]
    refine mem_traceConcat_of_mem hmem ?_
    unfold sup_doc_trace
    simp
  | true =>
    rw [sups_loop_true_trace]
    refine mem_traceConcat_of_mem hmem ?_
    simp

/-- Witness for C2 at a concrete input. -/
theorem C2_witness :
    cfgSupW ∈ [cfgSupW] ∧
    Event.vmaCall cfgSupW.uid
        (if false then none
         else (extract_documents envAllOk cfgSupW "supporting_documents").1)
      ∈ (sups_loop envAllOk false [cfgSupW] none).2 :=
  ⟨by decide,
   C2_vma_receives_branch_score envAllOk false [cfgSupW] none cfgSupW (by decide)⟩

/-- C4: the approval-status write (processing status `"success"`,
`is_autoapproved="yes"`) happens exactly once in the application-form
extraction stage iff the extraction call succeeds; never in the
supporting-document extraction stage; and exactly once in the
validation/matching stage iff both the validation call and the matching
call succeed.  Moreover every such write carries the document's ids, the
fixed `"success"` status and the `"yes"` marker. -/
theorem C4_approval_write_iff (env : Env) (doc : Config) (s : Option Int) :
    (List.countP Event.isApprovalWrite
        (extract_documents env doc "application_form").2 =
      if (env.extract doc.case_id doc.uid doc.document_class).status_code = 200
      then 1 else 0) ∧
    List.countP Event.isApprovalWrite
        (extract_documents env doc "supporting_documents").2 = 0 ∧
    (List.countP Event.isApprovalWrite (validate_match_approve env doc s).2 =
      if (env.validate doc.case_id doc.uid doc.document_class).status_code = 200 ∧
         (env.matching doc.case_id doc.uid).status_code = 200
      then 1 else 0) ∧
    ∀ e ∈ (extract_documents env doc "application_form").2 ++
          (validate_match_approve env doc s).2,
      e.isApprovalWrite = true →
      ∃ st, e = Event.approvalWrite doc.case_id doc.uid "success" st "yes" := by
  refine ⟨?_, ?_, ?_, ?_⟩
  · rw [extract_documents_trace]
    by_cases h : (env.extract doc.case_id doc.uid doc.document_class).status_code = 200
    · simp [h, Event.isApprovalWrite, Event.isExtractCall, List.countP_cons]
    · simp [h, Event.isApprovalWrite, List.countP_cons]
  · rw [extract_documents_trace]
    simp [Event.isApprovalWrite, List.countP_cons]
  · rw [validate_match_approve_trace]
    by_cases hv :
        (env.validate doc.case_id doc.uid doc.document_class).status_code = 200
    · by_cases hm : (env.matching doc.case_id doc.uid).status_code = 200
      · simp [hv, hm, Event.isApprovalWrite, List.countP_cons]
      · simp [hv, hm, Event.isApprovalWrite, List.countP_cons]
    · simp [hv, Event.isApprovalWrite, List.countP_cons]
  · intro e he hw
    rcases List.mem_append.mp he with h | h
    · rw [extract_documents_trace] at h
      rcases List.mem_cons.mp h with rfl | h
      · cases hw
      · split at h
        · rcases List.mem_singleton.mp h with rfl
          exact ⟨_, rfl⟩
        · cases h
    · rw [validate_match_approve_trace] at h
      rcases List.mem_cons.mp h with rfl | h
      · cases hw
      · split at h
        · rcases List.mem_cons.mp h with rfl | h
          · cases hw
          · split at h
            · rcases List.mem_singleton.mp h with rfl
              exact ⟨_, rfl⟩
            · cases h
        · cases h

/-- Witness for C4 at a concrete input. -/
theorem C4_witness :
    (List.countP Event.isApprovalWrite
        (extract_documents envAllOk cfgAppW "application_form").2 =
      if (envAllOk.extract cfgAppW.case_id cfgAppW.uid
            cfgAppW.document_class).status_code = 200
      then 1 else 0) ∧
    List.countP Event.isApprovalWrite
        (extract_documents envAllOk cfgAppW "supporting_documents").2 = 0 ∧
    (List.countP Event.isApprovalWrite
        (validate_match_approve envAllOk cfgAppW (some 8)).2 =
      if (envAllOk.validate cfgAppW.case_id cfgAppW.uid
            cfgAppW.document_class).status_code = 200 ∧
         (envAllOk.matching cfgAppW.case_id cfgAppW.uid).status_code = 200
      then 1 else 0) ∧
    ∀ e ∈ (extract_documents envAllOk cfgAppW "application_form").2 ++
          (validate_match_approve envAllOk cfgAppW (some 8)).2,
      e.isApprovalWrite = true →
      ∃ st,
        e = Event.approvalWrite cfgAppW.case_id cfgAppW.uid "success" st "yes" :=
  C4_approval_write_iff envAllOk cfgAppW (some 8)

/-- C5: for every hitl/reassign batch, routing makes no classification
call (its trace is empty), routes only the first config entry — solely to
applications on `document_type="application_form"`, solely to
supporting_docs on `"supporting_documents"`, to neither otherwise — and
the whole pipeline run makes no classification call either. -/
theorem C5_fastpath_routing (env : Env) (payload : Payload)
    (is_hitl is_reassign : Bool) (hflag : (is_hitl || is_reassign) = true)
    (c0 : Config) (rest : List Config)
    (hconf : payload.configs = some (c0 :: rest)) :
    route env payload is_hitl is_reassign =
      .ok ((if c0.document_type = some "application_form" then ([c0], [])
            else if c0.document_type = some "supporting_documents" then ([], [c0])
            else ([], [])), ([] : List Event)) ∧
    ∀ e ∈ (run_pipeline env payload is_hitl is_reassign).2,
      e.isClassifyCall = false := by
  have hroute : route env payload is_hitl is_reassign =
      .ok ((if c0.document_type = some "application_form" then ([c0], [])
            else if c0.document_type = some "supporting_documents" then ([], [c0])
            else ([], [])), ([] : List Event)) := by
    unfold route get_documents
    rw [hflag, hconf]
    by_cases h1 : c0.document_type = some "application_form"
    · simp [h1]
    · by_cases h2 : c0.document_type = some "supporting_documents"
      · simp [h1, h2]
      · simp [h1, h2]
  exact ⟨hroute,
    run_pipeline_no_classify_of_empty_route env payload is_hitl is_reassign _
      hroute⟩

/-- Witness for C5 at a concrete input. -/
theorem C5_witness :
    ((false || true) = true ∧ payloadSupW.configs = some [cfgSupW]) ∧
    (route envAllOk payloadSupW false true =
      .ok ((if cfgSupW.document_type = some "application_form"
            then ([cfgSupW], [])
            else if cfgSupW.document_type = some "supporting_documents"
            then ([], [cfgSupW])
            else ([], [])), ([] : List Event)) ∧
     ∀ e ∈ (run_pipeline envAllOk payloadSupW false true).2,
       e.isClassifyCall = false) :=
  ⟨⟨by decide, by decide⟩,
   C5_fastpath_routing envAllOk payloadSupW false true (by decide) cfgSupW []
     (by decide)⟩

/-- The config used in the C6 counterexample: a reassigned supporting
document. -/
def cfgC6 : Config :=
  ⟨some "case6", some "u6", some "g6", some "supporting_documents", none⟩

/-- The payload used in the C6 counterexample. -/
def payloadC6 : Payload := ⟨some [cfgC6]⟩

/-- The environment used in the C6 counterexample. -/
def envC6 : Env where
  classify := fun _ _ _ => ⟨200, none, none⟩
  extract := fun _ _ _ => ⟨200, some 5⟩
  validate := fun _ _ _ => ⟨200, some 6⟩
  matching := fun _ _ => ⟨200, some 7⟩
  get_values := fun _ _ _ _ _ => "approved"

/-- C6 counterexample: with `is_reassign=true` and `is_hitl=false`, routing
is NOT skipped — the flag router populates the supporting group from the
first config, and the stage loops then run on it (a validation call is
made), refuting the claim that neither group is populated by any routing. -/
theorem C6_counterexample :
    route envC6 payloadC6 false true =
      .ok ((([] : List Config), [cfgC6]), ([] : List Event)) ∧
    ([cfgC6] : List Config) ≠ [] ∧
    Event.validateCall (some "case6") (some "u6") none
      ∈ (run_pipeline envC6 payloadC6 false true).2 := by
  refine ⟨rfl, by decide, by decide⟩

/-- C6 amended: for every batch with `is_reassign=true` and
`is_hitl=false`, routing is not skipped: the flag-based fast-path router
`get_documents` runs — exactly as in the hitl case — populating the groups
from the first config entry; only the classification-based router is
bypassed (the routing trace is empty). -/
theorem C6_reassign_routes_via_flag_router (env : Env) (payload : Payload) :
    route env payload false true =
      (match get_documents payload with
       | .error e => .error e
       | .ok groups => .ok (groups, ([] : List Event))) ∧
    route env payload false true = route env payload true true :=
  ⟨rfl, rfl⟩

/-- The reassign supporting loop never makes an extraction call. -/
theorem sups_loop_true_no_extract (env : Env) (docs : List Config)
    (s0 : Option Int) :
    ∀ e ∈ (sups_loop env true docs s0).2, e.isExtractCall = false := by
  intro e he
  rw [sups_loop_true_trace] at he
  refine traceConcat_forall (p := fun x => x.isExtractCall = false)
    (fun d x hx => ?_) docs e he
  rcases List.mem_cons.mp hx with rfl | hx
  · rfl
  · rw [validate_match_approve_trace] at hx
    rcases List.mem_cons.mp hx with rfl | hx
    · rfl
    · split at hx
      · rcases List.mem_cons.mp hx with rfl | hx
        · rfl
        · split at hx
          · rcases List.mem_singleton.mp hx with rfl
            rfl
          · cases hx
      · cases hx

/-- On a non-empty configs list, `get_documents` never raises. -/
theorem get_documents_ok (payload : Payload) (c0 : Config) (rest : List Config)
    (hconf : payload.configs = some (c0 :: rest)) :
    ∃ g, get_documents payload = .ok g := by
  by_cases h1 : c0.document_type = some "application_form"
  · exact ⟨([c0], []), by unfold get_documents; rw [hconf]; simp [h1]⟩
  · by_cases h2 : c0.document_type = some "supporting_documents"
    · exact ⟨([], [c0]), by unfold get_documents; rw [hconf]; simp [h1, h2]⟩
    · exact ⟨([], []), by unfold get_documents; rw [hconf]; simp [h1, h2]⟩

/-- C1 counterexample: in a standard batch whose supporting document's
extraction call fails, the code still makes the validation call, the
matching call and the approval-status write for that document — refuting
the claim that none of them is made. -/
theorem C1_counterexample :
    (envExtractFail.extract (some "caseS") (some "uS")
      (some "clsS")).status_code ≠ 200 ∧
    Event.extractCall (some "caseS") (some "uS") (some "clsS")
      ∈ (run_pipeline envExtractFail payloadSupW false false).2 ∧
    Event.validateCall (some "caseS") (some "uS") (some "clsS")
      ∈ (run_pipeline envExtractFail payloadSupW false false).2 ∧
    Event.matchCall (some "caseS") (some "uS")
      ∈ (run_pipeline envExtractFail payloadSupW false false).2 ∧
    Event.approvalWrite (some "caseS") (some "uS") "success" "approved" "yes"
      ∈ (run_pipeline envExtractFail payloadSupW false false).2 :=
  ⟨by decide, by decide, by decide, by decide, by decide⟩

/-- C1 amended: if a supporting document D's extraction call fails, D's
extraction stage makes no approval-status write and produces score
absent, but the validation/matching/approval stage is still invoked for D
with extraction_score absent; and the supporting loop's trace is a
concatenation of per-document segments, each depending only on its own
document, so every other document in the batch is processed unaffected. -/
theorem C1_extraction_failure_effects (env : Env) (docs : List Config)
    (s0 : Option Int) (doc : Config) (hmem : doc ∈ docs)
    (hfail :
      (env.extract doc.case_id doc.uid doc.document_class).status_code ≠ 200) :
    (∀ e ∈ (extract_documents env doc "supporting_documents").2,
       e.isApprovalWrite = false) ∧
    (extract_documents env doc "supporting_documents").1 = none ∧
    Event.vmaCall doc.uid none ∈ (sups_loop env false docs s0).2 ∧
    (sups_loop env false docs s0).2 = traceConcat (sup_doc_trace env) docs := by
  have hscore : (extract_documents env doc "supporting_documents").1 = none := by
    rw [extract_documents_score, if_neg hfail]
  refine ⟨?_, hscore, ?_, sups_loop_false_trace env docs s0⟩
  · intro e he
    rw [extract_documents_trace] at he
    rcases List.mem_cons.mp he with rfl | he
    · rfl
    · split at he
      · rename_i hcond
        exact absurd hcond.2 (by decide)
      · cases he
  · rw [sups_loop_false_trace]
    refine mem_traceConcat_of_mem hmem ?_
    simp only [sup_doc_trace]
    rw [hscore]
    simp

/-- Witness for the amended C1 at a concrete input. -/
theorem C1_witness :
    (cfgSupW ∈ [cfgSupW] ∧
     (envExtractFail.extract cfgSupW.case_id cfgSupW.uid
       cfgSupW.document_class).status_code ≠ 200) ∧
    ((∀ e ∈ (extract_documents envExtractFail cfgSupW "supporting_documents").2,
        e.isApprovalWrite = false) ∧
     (extract_documents envExtractFail cfgSupW "supporting_documents").1 = none ∧
     Event.vmaCall cfgSupW.uid none
       ∈ (sups_loop envExtractFail false [cfgSupW] none).2 ∧
     (sups_loop envExtractFail false [cfgSupW] none).2 =
       traceConcat (sup_doc_trace envExtractFail) [cfgSupW]) :=
  ⟨⟨by decide, by decide⟩,
   C1_extraction_failure_effects envExtractFail [cfgSupW] none cfgSupW
     (by decide) (by decide)⟩

/-- C3: in a reassign batch, the supporting loop never makes an extraction
call (for any document list), the whole pipeline run makes no extraction
call, and the routed supporting document still gets its
validation/matching stage, invoked with extraction_score absent: its
validation call is made, and its matching call is made whenever the
validation call succeeds. -/
theorem C3_reassign_skip (env : Env) (is_hitl : Bool) (payload : Payload)
    (c0 : Config) (rest : List Config)
    (hconf : payload.configs = some (c0 :: rest))
    (htype : c0.document_type = some "supporting_documents") :
    (∀ docs s0, ∀ e ∈ (sups_loop env true docs s0).2,
       e.isExtractCall = false) ∧
    (∀ e ∈ (run_pipeline env payload is_hitl true).2,
       e.isExtractCall = false) ∧
    Event.vmaCall c0.uid none ∈ (run_pipeline env payload is_hitl true).2 ∧
    Event.validateCall c0.case_id c0.uid c0.document_class
      ∈ (run_pipeline env payload is_hitl true).2 ∧
    ((env.validate c0.case_id c0.uid c0.document_class).status_code = 200 →
      Event.matchCall c0.case_id c0.uid
        ∈ (run_pipeline env payload is_hitl true).2) := by
  have hroute : route env payload is_hitl true = .ok (([], [c0]), []) := by
    unfold route get_documents
    rw [hconf]
    simp [htype]
  have htrace : (run_pipeline env payload is_hitl true).2 =
      (sups_loop env true [c0] none).2 := by
    rw [run_pipeline_trace_eq,
      run_pipeline_inner_trace env payload is_hitl true _ _ hroute]
    simp [extraction_phase, apps_loop]
  refine ⟨fun docs s0 => sups_loop_true_no_extract env docs s0, ?_, ?_, ?_, ?_⟩
  · rw [htrace]
    exact sups_loop_true_no_extract env [c0] none
  · rw [htrace]
    simp [sups_loop]
  · rw [htrace]
    simp [sups_loop, validate_match_approve_trace]
  · intro hv
    rw [htrace]
    simp [sups_loop, validate_match_approve_trace, hv]

/-- Witness for C3 at a concrete input. -/
theorem C3_witness :
    (payloadSupW.configs = some [cfgSupW] ∧
     cfgSupW.document_type = some "supporting_documents") ∧
    ((∀ docs s0, ∀ e ∈ (sups_loop envAllOk true docs s0).2,
        e.isExtractCall = false) ∧
     (∀ e ∈ (run_pipeline envAllOk payloadSupW false true).2,
        e.isExtractCall = false) ∧
     Event.vmaCall cfgSupW.uid none
       ∈ (run_pipeline envAllOk payloadSupW false true).2 ∧
     Event.validateCall cfgSupW.case_id cfgSupW.uid cfgSupW.document_class
       ∈ (run_pipeline envAllOk payloadSupW false true).2 ∧
     ((envAllOk.validate cfgSupW.case_id cfgSupW.uid
         cfgSupW.document_class).status_code = 200 →
       Event.matchCall cfgSupW.case_id cfgSupW.uid
         ∈ (run_pipeline envAllOk payloadSupW false true).2)) :=
  ⟨⟨by decide, by decide⟩,
   C3_reassign_skip envAllOk false payloadSupW cfgSupW [] (by decide)
     (by decide)⟩

/-- C7: in the standard flow (both flags false), routing returns the two
groups as order-preserving `filterMap`s of the input — so each input
document appears in at most one group, relative order within each group
matches input order — and a document is routed nowhere exactly when its
classification call failed or returned an unrecognized `doc_type`; the
routing trace is one classification call per input, in order. -/
theorem C7_standard_routing_partition (env : Env) (payload : Payload)
    (configs : List Config) (hconf : payload.configs = some configs) :
    route env payload false false =
      .ok ((configs.filterMap (routed_app env),
            configs.filterMap (routed_sup env)),
           configs.map (fun c => Event.classifyCall c.case_id c.uid c.gcs_url)) ∧
    (∀ c : Config,
      ¬((routed_app env c).isSome = true ∧ (routed_sup env c).isSome = true)) ∧
    (∀ c : Config,
      (routed_app env c = none ∧ routed_sup env c = none) ↔
        ((env.classify c.case_id c.uid c.gcs_url).status_code ≠ 200 ∨
         ((env.classify c.case_id c.uid c.gcs_url).doc_type ≠
            some "application_form" ∧
          (env.classify c.case_id c.uid c.gcs_url).doc_type ≠
            some "supporting_documents"))) := by
  refine ⟨?_, ?_, ?_⟩
  · unfold route filter_documents
    rw [hconf]
    simp [filter_documents_go_eq]
  · intro c
    unfold routed_app routed_sup
    rintro ⟨ha, hs⟩
    by_cases h1 : (env.classify c.case_id c.uid c.gcs_url).status_code = 200 ∧
        (env.classify c.case_id c.uid c.gcs_url).doc_type =
          some "application_form"
    · by_cases h2 : (env.classify c.case_id c.uid c.gcs_url).status_code = 200 ∧
          (env.classify c.case_id c.uid c.gcs_url).doc_type =
            some "supporting_documents"
      · rcases h2 with ⟨_, h2t⟩
        rw [h1.2] at h2t
        simp at h2t
      · rw [if_neg h2] at hs
        simp at hs
    · rw [if_neg h1] at ha
      simp at ha
  · intro c
    unfold routed_app routed_sup
    by_cases h200 : (env.classify c.case_id c.uid c.gcs_url).status_code = 200
    · by_cases happ : (env.classify c.case_id c.uid c.gcs_url).doc_type =
          some "application_form"
      · simp [h200, happ]
      · by_cases hsup : (env.classify c.case_id c.uid c.gcs_url).doc_type =
            some "supporting_documents"
        · simp [h200, happ, hsup]
        · simp [h200, happ, hsup]
    · simp [h200]

/-- A two-entry payload: one application form, one supporting document. -/
def payloadMixW : Payload := ⟨some [cfgAppW, cfgSupW]⟩

/-- Witness for C7 at a concrete input. -/
theorem C7_witness :
    payloadMixW.configs = some [cfgAppW, cfgSupW] ∧
    (route envAllOk payloadMixW false false =
      .ok ((List.filterMap (routed_app envAllOk) [cfgAppW, cfgSupW],
            List.filterMap (routed_sup envAllOk) [cfgAppW, cfgSupW]),
           List.map (fun c => Event.classifyCall c.case_id c.uid c.gcs_url)
             [cfgAppW, cfgSupW]) ∧
     (∀ c : Config,
       ¬((routed_app envAllOk c).isSome = true ∧
         (routed_sup envAllOk c).isSome = true)) ∧
     (∀ c : Config,
       (routed_app envAllOk c = none ∧ routed_sup envAllOk c = none) ↔
         ((envAllOk.classify c.case_id c.uid c.gcs_url).status_code ≠ 200 ∨
          ((envAllOk.classify c.case_id c.uid c.gcs_url).doc_type ≠
             some "application_form" ∧
           (envAllOk.classify c.case_id c.uid c.gcs_url).doc_type ≠
             some "supporting_documents")))) :=
  ⟨by decide,
   C7_standard_routing_partition envAllOk payloadMixW [cfgAppW, cfgSupW]
     (by decide)⟩

/-- C8: the batch invocation raises exactly the HTTP-500 pipeline error,
carrying the original cause, iff an unhandled exception escapes the `try`
body; and for a well-formed payload (configs present, and non-empty under
the hitl/reassign fast path) the invocation completes successfully for
every collaborator environment — a collaborator call returning non-success
never raises. -/
theorem C8_error_surface (env : Env) (payload : Payload)
    (is_hitl is_reassign : Bool) :
    (∀ e : PyError,
      (run_pipeline env payload is_hitl is_reassign).1 = .error (500, e) ↔
      (run_pipeline_inner env payload is_hitl is_reassign).1 = .error e) ∧
    ((payload.configs ≠ none ∧
      ¬((is_hitl || is_reassign) = true ∧ payload.configs = some [])) →
      (run_pipeline env payload is_hitl is_reassign).1 = .ok ()) := by
  constructor
  · intro e
    rcases hinner : run_pipeline_inner env payload is_hitl is_reassign
      with ⟨res, tr⟩
    cases res with
    | ok u => simp [run_pipeline, hinner]
    | error e2 => simp [run_pipeline, hinner]
  · rintro ⟨hne, hnot⟩
    obtain ⟨g, ev, hroute⟩ :
        ∃ g ev, route env payload is_hitl is_reassign = .ok (g, ev) := by
      by_cases hb : (is_hitl || is_reassign) = true
      · rcases hcfg : payload.configs with _ | cs
        · exact absurd hcfg hne
        · rcases cs with _ | ⟨c0, rest⟩
          · exact absurd ⟨hb, hcfg⟩ hnot
          · obtain ⟨g, hg⟩ := get_documents_ok payload c0 rest hcfg
            refine ⟨g, [], ?_⟩
            unfold route
            rw [hb, hg]
            simp
      · have hb2 : is_hitl = false ∧ is_reassign = false := by
          simpa using hb
        rcases hcfg : payload.configs with _ | cs
        · exact absurd hcfg hne
        · refine ⟨(filter_documents_go env cs).1,
            (filter_documents_go env cs).2, ?_⟩
          unfold route
          simp [hb2.1, hb2.2, filter_documents, hcfg]
    have hinner := run_pipeline_inner_trace env payload is_hitl is_reassign
      g ev hroute
    simp [run_pipeline, hinner]

/-- Witness for C8 at a concrete input. -/
theorem C8_witness :
    (payloadSupW.configs ≠ none ∧
     ¬((false || false) = true ∧ payloadSupW.configs = some [])) ∧
    (run_pipeline envAllOk payloadSupW false false).1 = .ok () :=
  ⟨⟨by decide, by decide⟩,
   (C8_error_surface envAllOk payloadSupW false false).2 ⟨by decide, by decide⟩⟩

/-- C9: whenever routing succeeds, the invocation completes without error
and its trace is the routing trace followed by the extraction phase
exactly when `is_hitl` is set or either group is non-empty; and if routing
produced two empty groups then — whether or not `is_hitl` is set — every
event of the whole run is a classification call, so no extraction,
validation, matching, or approval-status call is made. -/
theorem C9_empty_route_noop (env : Env) (payload : Payload)
    (is_hitl is_reassign : Bool) (groups : List Config × List Config)
    (ev_route : List Event)
    (hroute : route env payload is_hitl is_reassign = .ok (groups, ev_route)) :
    (run_pipeline env payload is_hitl is_reassign).1 = .ok () ∧
    (run_pipeline env payload is_hitl is_reassign).2 =
      ev_route ++
        (if is_hitl || !groups.1.isEmpty || !groups.2.isEmpty then
          extraction_phase env is_reassign groups.1 groups.2
         else []) ∧
    (groups.1 = [] → groups.2 = [] →
      ∀ e ∈ (run_pipeline env payload is_hitl is_reassign).2,
        e.isClassifyCall = true) := by
  have hinner := run_pipeline_inner_trace env payload is_hitl is_reassign
    groups ev_route hroute
  refine ⟨by simp [run_pipeline, hinner], ?_, ?_⟩
  · rw [run_pipeline_trace_eq, hinner]
  · intro h1 h2 e he
    rw [run_pipeline_trace_eq, hinner] at he
    simp only [h1, h2, extraction_phase, apps_loop, sups_loop,
      List.isEmpty_nil, Bool.not_true, Bool.or_false, List.append_nil,
      ite_self] at he
    exact route_trace_classify env payload is_hitl is_reassign groups ev_route
      hroute e he

/-- An environment in which classification always fails. -/
def envClassifyFail : Env where
  classify := fun _ _ _ => ⟨500, none, none⟩
  extract := fun _ _ _ => ⟨200, some 1⟩
  validate := fun _ _ _ => ⟨200, some 2⟩
  matching := fun _ _ => ⟨200, some 3⟩
  get_values := fun _ _ _ _ _ => "approved"

/-- Witness for C9 at a concrete input: classification fails for the only
document, so routing yields two empty groups. -/
theorem C9_witness :
    route envClassifyFail payloadSupW false false =
      .ok ((([] : List Config), ([] : List Config)),
           [Event.classifyCall (some "caseS") (some "uS") (some "gS")]) ∧
    ((run_pipeline envClassifyFail payloadSupW false false).1 = .ok () ∧
     (run_pipeline envClassifyFail payloadSupW false false).2 =
       [Event.classifyCall (some "caseS") (some "uS") (some "gS")] ++
         (if (false : Bool) || !([] : List Config).isEmpty ||
             !([] : List Config).isEmpty then
           extraction_phase envClassifyFail false [] []
          else []) ∧
     (([] : List Config) = [] → ([] : List Config) = [] →
       ∀ e ∈ (run_pipeline envClassifyFail payloadSupW false false).2,
         e.isClassifyCall = true)) :=
  ⟨rfl,
   C9_empty_route_noop envClassifyFail payloadSupW false false ([], [])
     [Event.classifyCall (some "caseS") (some "uS") (some "gS")] rfl⟩

/-- C10: for a hitl/reassign batch whose payload has an empty configs list
(or none at all), `run_pipeline` raises the generic HTTP-500 pipeline
error — carrying the `IndexError` (resp. `TypeError`) from the fast-path
router's unconditional first-config access — rather than treating the
batch as an empty-route no-op; no call is made. -/
theorem C10_fastpath_empty_configs_error (env : Env) (payload : Payload)
    (is_hitl is_reassign : Bool) (hflag : (is_hitl || is_reassign) = true) :
    (payload.configs = some [] →
      run_pipeline env payload is_hitl is_reassign =
        (.error (500, PyError.indexError), [])) ∧
    (payload.configs = none →
      run_pipeline env payload is_hitl is_reassign =
        (.error (500, PyError.typeError), [])) := by
  constructor
  · intro hcfg
    have hroute : route env payload is_hitl is_reassign =
        .error PyError.indexError := by
      unfold route get_documents
      rw [hflag, hcfg]
      simp
    unfold run_pipeline run_pipeline_inner
    rw [hroute]
  · intro hcfg
    have hroute : route env payload is_hitl is_reassign =
        .error PyError.typeError := by
      unfold route get_documents
      rw [hflag, hcfg]
      simp
    unfold run_pipeline run_pipeline_inner
    rw [hroute]

/-- The empty-configs payload used in the C10 witness. -/
def payloadEmptyW : Payload := ⟨some []⟩

/-- Witness for C10 at a concrete input. -/
theorem C10_witness :
    ((true : Bool) || false) = true ∧
    payloadEmptyW.configs = some [] ∧
    run_pipeline envAllOk payloadEmptyW true false =
      (.error (500, PyError.indexError), []) :=
  ⟨by decide, by decide,
   (C10_fastpath_empty_configs_error envAllOk payloadEmptyW true false
     (by decide)).1 (by decide)⟩

end ProcessTask
